import Mathlib

/-!
Shallow embedding of the DoroScore rating-tracking subsystem.

The model follows `services/rating_tracker_service.go` (the
`RatingTrackerService` with its write log, per-movie hotness records,
staleness-threshold recalculation and ranked snapshots) and the batch
ingestion path of the test controller (`generateBatchData`, `flushBatch`,
`writeMovieRatingsBatch`).

Modelling conventions:
  - Go `float64` values (ratings, scores, times) are modelled as `ℚ`
    with exact arithmetic; time instants are rationals measured in hours,
    so `now.Sub(t).Hours()` becomes `now - t`.
  - Go maps are modelled as association lists in insertion order with
    unique keys; lookup returns the first binding.
  - External effects are parameters: the backing-store read that seeds
    `LastRatingCount` is an `Option Nat` (`none` = failed read), the
    outcome of an HBase put is a `Bool`, the title lookup is a function
    `String → Option String`, and the recomputation result is an
    `Option (ℚ × Nat)` (`none` = scan/persist failure).
-/

set_option linter.unusedVariables false

namespace DoroScore

/-- Mirror of `RatingWriteRecord`: one immutable write event. -/
structure RatingWriteRecord where
  movieID : String
  userID : String
  rating : ℚ
  timestamp : ℚ
  source : String
deriving DecidableEq, Repr

/-- Mirror of `MovieHotness`: the per-movie mutable aggregate record. -/
structure MovieHotness where
  movieID : String
  title : String
  writeCount : Nat
  lastWrite : ℚ
  avgRating : ℚ
  hotnessScore : ℚ
  lastRatingCount : Nat
  newWritesSinceCalc : Nat
deriving DecidableEq, Repr

/-- Mirror of `RatingTrackerService`: write log, per-movie stats, log capacity. -/
structure RatingTrackerService where
  writeRecords : List RatingWriteRecord
  movieStats : List (String × MovieHotness)
  maxRecords : Nat
deriving DecidableEq, Repr

/-- Mirror of `NewRatingTrackerService`: empty log and stats, capacity 10000. -/
def newRatingTrackerService : RatingTrackerService :=
  { writeRecords := [], movieStats := [], maxRecords := 10000 }

/-- Go map read `rts.movieStats[movieID]`: first binding for the key. -/
def statsFind (m : List (String × MovieHotness)) (k : String) : Option MovieHotness :=
  match m with
  | [] => none
  | (k₀, v) :: rest => if k₀ = k then some v else statsFind rest k

/-- Go map in-place mutation of the record stored under `k` (no-op if absent). -/
def statsUpdate (m : List (String × MovieHotness)) (k : String)
    (f : MovieHotness → MovieHotness) : List (String × MovieHotness) :=
  match m with
  | [] => []
  | (k₀, v) :: rest =>
      if k₀ = k then (k₀, f v) :: rest else (k₀, v) :: statsUpdate rest k f

/-- Mirror of `getCurrentRatingCount`: best-effort read of the movie's current
rating count from the backing store; any failure (or missing field) yields 0. -/
def getCurrentRatingCount (storeResult : Option Nat) : Nat :=
  match storeResult with
  | none => 0
  | some n => n

/-- Mirror of `calculateHotnessScore`: recompute `hotnessScore` from
`writeCount`, time decay since `lastWrite`, and `avgRating / 5` — note the
source applies no clamp to the rating factor. -/
def calculateHotnessScore (now : ℚ) (h : MovieHotness) : MovieHotness :=
  let timeDiff := now - h.lastWrite
  let timeDecay : ℚ := 1 / (1 + timeDiff / 24)
  let writeScore : ℚ := (h.writeCount : ℚ)
  let ratingScore : ℚ := h.avgRating / 5
  { h with hotnessScore := writeScore * timeDecay * (7/10 + 3/10 * ratingScore) }

/-- Mirror of the threshold computation in `checkAndRecalculateRating` and
`GetMovieRatingThresholdStatus`: `int(float64(lastRatingCount) * 0.1)`,
floored at 1. -/
def calcThreshold (lastRatingCount : Nat) : Nat :=
  let t : Nat := (Int.floor ((lastRatingCount : ℚ) * (1/10))).toNat
  if t < 1 then 1 else t

/-- Mirror of the trigger test in `checkAndRecalculateRating`:
`NewWritesSinceCalc >= threshold` dispatches an async recomputation. -/
def checkAndRecalculateRating (h : MovieHotness) : Bool :=
  decide (calcThreshold h.lastRatingCount ≤ h.newWritesSinceCalc)

/-- The in-place update in `RecordRatingWrite` for an already-tracked movie:
bump the counters, stamp the write time, smooth the running average. -/
def updatedHotness (now rating : ℚ) (h : MovieHotness) : MovieHotness :=
  { h with
    writeCount := h.writeCount + 1
    lastWrite := now
    newWritesSinceCalc := h.newWritesSinceCalc + 1
    avgRating := (h.avgRating + rating) / 2 }

/-- The fresh record created in `RecordRatingWrite` for an unseen movie,
seeded from the best-effort backing-store read. -/
def initialHotness (movieID : String) (rating now : ℚ) (storeCount : Option Nat) :
    MovieHotness :=
  { movieID := movieID, title := "", writeCount := 1, lastWrite := now,
    avgRating := rating, hotnessScore := 0,
    lastRatingCount := getCurrentRatingCount storeCount,
    newWritesSinceCalc := 1 }

/-- Mirror of `RecordRatingWrite`: append the event to the bounded log,
create or update the movie's hotness record, decide whether to dispatch an
async recomputation, then refresh the hotness score. Returns the new state
and whether a recomputation was dispatched. -/
def recordRatingWrite (rts : RatingTrackerService) (movieID userID : String)
    (rating : ℚ) (source : String) (now : ℚ) (storeCount : Option Nat) :
    RatingTrackerService × Bool :=
  let record : RatingWriteRecord :=
    { movieID := movieID, userID := userID, rating := rating,
      timestamp := now, source := source }
  let recs := rts.writeRecords ++ [record]
  let recs :=
    if rts.maxRecords < recs.length then recs.drop (recs.length - rts.maxRecords)
    else recs
  let stats :=
    match statsFind rts.movieStats movieID with
    | some _ => statsUpdate rts.movieStats movieID (updatedHotness now rating)
    | none =>
        rts.movieStats ++ [(movieID, initialHotness movieID rating now storeCount)]
  let dispatch :=
    match statsFind stats movieID with
    | some h => checkAndRecalculateRating h
    | none => false
  let stats := statsUpdate stats movieID (calculateHotnessScore now)
  ({ rts with writeRecords := recs, movieStats := stats }, dispatch)

/-- Derived description of the movie's record right after the map update in
`RecordRatingWrite` (before the hotness-score refresh). -/
def postWriteRecord (rts : RatingTrackerService) (movieID : String)
    (rating now : ℚ) (storeCount : Option Nat) : MovieHotness :=
  match statsFind rts.movieStats movieID with
  | some h => updatedHotness now rating h
  | none => initialHotness movieID rating now storeCount

/-- Mirror of `recalculateMovieRating`: on scan/persist failure (`none`)
return with no state change and no retry; on success install the new count,
reset the pending-writes counter and overwrite the running average. -/
def recalculateMovieRating (rts : RatingTrackerService) (movieID : String)
    (result : Option (ℚ × Nat)) : RatingTrackerService :=
  match result with
  | none => rts
  | some (avgRating, ratingCount) =>
      { rts with
        movieStats := statsUpdate rts.movieStats movieID (fun h =>
          { h with
            lastRatingCount := ratingCount
            newWritesSinceCalc := 0
            avgRating := avgRating }) }

/-- Title resolution inside `GetHotMovies` / `GetMovieHotness`: resolve only
when the cached title is empty; a failed lookup yields the placeholder title. -/
def resolveTitle (lookup : String → Option String) (h : MovieHotness) :
    MovieHotness :=
  if h.title = "" then
    match lookup h.movieID with
    | some t => { h with title := t }
    | none => { h with title := "电影 " ++ h.movieID }
  else h

/-- The comparator passed to `sort.Slice` in `GetHotMovies`, as a total
Boolean preorder: descending by `hotnessScore`. -/
def hotnessDesc (a b : MovieHotness) : Bool :=
  decide (b.hotnessScore ≤ a.hotnessScore)

/-- Mirror of `GetHotMovies`: refresh every record's score (and lazily its
title), sort all records descending by score, truncate to `limit` when
`limit > 0`. Returns the updated state (records are mutated in place in the
source) together with the returned slice. -/
def getHotMovies (rts : RatingTrackerService) (lookup : String → Option String)
    (now : ℚ) (limit : Int) : RatingTrackerService × List MovieHotness :=
  let stats := rts.movieStats.map (fun kv =>
    (kv.1, resolveTitle lookup (calculateHotnessScore now kv.2)))
  let hotMovies := (stats.map Prod.snd).mergeSort hotnessDesc
  let hotMovies :=
    if 0 < limit ∧ limit < (hotMovies.length : Int) then hotMovies.take limit.toNat
    else hotMovies
  ({ rts with movieStats := stats }, hotMovies)

/-- Mirror of `GetHotMovies` with Go's randomized map-iteration order made
explicit: `iter` is the sequence of bindings in the order the `range` loop
visits them (at runtime, a permutation of `movieStats` whose order is not
guaranteed to repeat across calls). The stored records are refreshed
entry-wise (order-independent), while the returned slice is collected in
iteration order before the comparison sort, so the relative order of tied
scores in the output depends on `iter`. -/
def getHotMoviesIter (rts : RatingTrackerService)
    (lookup : String → Option String) (now : ℚ) (limit : Int)
    (iter : List (String × MovieHotness)) :
    RatingTrackerService × List MovieHotness :=
  let stats := rts.movieStats.map (fun kv =>
    (kv.1, resolveTitle lookup (calculateHotnessScore now kv.2)))
  let hotMovies := (iter.map (fun kv =>
    resolveTitle lookup (calculateHotnessScore now kv.2))).mergeSort hotnessDesc
  let hotMovies :=
    if 0 < limit ∧ limit < (hotMovies.length : Int) then hotMovies.take limit.toNat
    else hotMovies
  ({ rts with movieStats := stats }, hotMovies)

/-- Mirror of `GetMovieHotness`: refresh one record and return it, or a
not-found signal (`none`) for an untracked movie. -/
def getMovieHotness (rts : RatingTrackerService) (lookup : String → Option String)
    (now : ℚ) (movieID : String) : RatingTrackerService × Option MovieHotness :=
  match statsFind rts.movieStats movieID with
  | some _ =>
      let stats := statsUpdate rts.movieStats movieID (fun h =>
        resolveTitle lookup (calculateHotnessScore now h))
      ({ rts with movieStats := stats }, statsFind stats movieID)
  | none => (rts, none)

/-- Mirror of `GetRecentWrites`: the last `limit` events (all of them when
`limit ≤ 0` or fewer exist), as a copy. -/
def getRecentWrites (rts : RatingTrackerService) (limit : Int) :
    List RatingWriteRecord :=
  let records := rts.writeRecords
  if 0 < limit ∧ limit < (records.length : Int) then
    records.drop (records.length - limit.toNat)
  else records

/-- Mirror of `GetMovieRatingThresholdStatus`, restricted to the fields the
spec talks about. `none` models the error payload for an untracked movie. -/
structure ThresholdStatus where
  lastRatingCount : Nat
  newWritesSinceCalc : Nat
  threshold : Nat
  needsRecalculation : Bool
deriving DecidableEq, Repr

/-- Mirror of `GetMovieRatingThresholdStatus`: recompute the threshold with
the same formula as the trigger path and report the progress. -/
def getMovieRatingThresholdStatus (rts : RatingTrackerService)
    (movieID : String) : Option ThresholdStatus :=
  match statsFind rts.movieStats movieID with
  | some h =>
      let threshold := calcThreshold h.lastRatingCount
      some { lastRatingCount := h.lastRatingCount
             newWritesSinceCalc := h.newWritesSinceCalc
             threshold := threshold
             needsRecalculation := decide (threshold ≤ h.newWritesSinceCalc) }
  | none => none

/-- Mirror of `WriteRatingToHBase`: a failed put (`putOk = false`) returns the
error and performs no tracking; a successful put records the write. -/
def writeRatingToHBase (rts : RatingTrackerService) (movieID userID : String)
    (rating : ℚ) (source : String) (now : ℚ) (storeCount : Option Nat)
    (putOk : Bool) : RatingTrackerService × Except String Unit :=
  if putOk then
    ((recordRatingWrite rts movieID userID rating source now storeCount).1,
      Except.ok ())
  else (rts, Except.error "写入HBase失败")

/-- Mirror of `BatchWriteItem`: one buffered rating write. -/
structure BatchWriteItem where
  movieID : String
  userID : String
  rating : ℚ
  source : String
deriving DecidableEq, Repr

/-- Go map assignment `values[userID] = rating`: overwrite the existing
binding for the key, else append a new one. -/
def valuesInsert (values : List (String × ℚ)) (k : String) (v : ℚ) :
    List (String × ℚ) :=
  match values with
  | [] => [(k, v)]
  | (k₀, v₀) :: rest =>
      if k₀ = k then (k₀, v) :: rest else (k₀, v₀) :: valuesInsert rest k v

/-- The `values` map built by the loop in `writeMovieRatingsBatch`: one cell
per user ID, later items for the same user overwriting earlier ones. -/
def buildBatchValues (items : List BatchWriteItem) : List (String × ℚ) :=
  items.foldl (fun values item => valuesInsert values item.userID item.rating) []

/-- Lookup in the put payload. -/
def valuesFind (values : List (String × ℚ)) (k : String) : Option ℚ :=
  match values with
  | [] => none
  | (k₀, v) :: rest => if k₀ = k then some v else valuesFind rest k

/-- Mirror of `writeMovieRatingsBatch`: one grouped put for the whole
partition (`buildBatchValues items` is the payload); a failed put reports
`(0, len(items))` and records nothing, a successful put reports
`(len(items), 0)` and feeds every item to `RecordRatingWrite`. -/
def writeMovieRatingsBatch (rts : RatingTrackerService) (movieID : String)
    (items : List BatchWriteItem) (now : ℚ) (storeCount : Option Nat)
    (putOk : Bool) : RatingTrackerService × Nat × Nat :=
  if putOk then
    (items.foldl (fun s item =>
        (recordRatingWrite s item.movieID item.userID item.rating item.source
          now storeCount).1) rts,
      items.length, 0)
  else (rts, 0, items.length)

/-- One entity partition flush attempt: the items of the partition and the
put outcome. -/
structure FlushAttempt where
  items : List BatchWriteItem
  putOk : Bool

/-- A sequence of partition flush attempts applied to the tracker. -/
def runFlushAttempts (rts : RatingTrackerService) (movieID : String)
    (now : ℚ) (storeCount : Option Nat) (attempts : List FlushAttempt) :
    RatingTrackerService :=
  attempts.foldl (fun s a =>
    (writeMovieRatingsBatch s movieID a.items now storeCount a.putOk).1) rts

/-- The state of the batch ingestion buffer of `TestController`. -/
structure TestController where
  batchSize : Nat
  batchBuffer : List BatchWriteItem
deriving DecidableEq, Repr

/-- Mirror of `NewTestController` restricted to the buffer: batch size 50,
empty buffer. -/
def newTestController : TestController :=
  { batchSize := 50, batchBuffer := [] }

/-- Mirror of `flushBatchUnsafe` restricted to buffer dynamics: an empty
buffer is a no-op; otherwise the whole buffer is handed to the flush path as
one event and the buffer is cleared. Returns the flush events produced. -/
def flushBatchUnsafe (tc : TestController) :
    TestController × List (List BatchWriteItem) :=
  if tc.batchBuffer.length = 0 then (tc, [])
  else ({ tc with batchBuffer := [] }, [tc.batchBuffer])

/-- Mirror of `generateBatchData`: append the generated chunk to the buffer,
then flush immediately when the buffer has reached `batchSize`. -/
def generateBatchData (tc : TestController) (chunk : List BatchWriteItem) :
    TestController × List (List BatchWriteItem) :=
  let tc := { tc with batchBuffer := tc.batchBuffer ++ chunk }
  if tc.batchSize ≤ tc.batchBuffer.length then flushBatchUnsafe tc
  else (tc, [])

/-- Run `generateBatchData` over a sequence of chunks with no intervening
timer fire, accumulating the flush events in order. -/
def runGenerate (tc : TestController) :
    List (List BatchWriteItem) → TestController × List (List BatchWriteItem)
  | [] => (tc, [])
  | chunk :: rest =>
      let step := generateBatchData tc chunk
      let next := runGenerate step.1 rest
      (next.1, step.2 ++ next.2)

/-- The operations that touch the tracker state, for whole-system
invariants: a tracked write, a completed (successful or failed) async
recomputation, and the two read-path refreshes. -/
inductive TrackerOp where
  | write (movieID userID : String) (rating : ℚ) (source : String)
      (now : ℚ) (storeCount : Option Nat)
  | recalc (movieID : String) (result : Option (ℚ × Nat))
  | snapshot (lookup : String → Option String) (now : ℚ) (limit : Int)
  | getOne (lookup : String → Option String) (now : ℚ) (movieID : String)

/-- Effect of one operation on the tracker state. -/
def trackerStep (rts : RatingTrackerService) : TrackerOp → RatingTrackerService
  | TrackerOp.write m u r s now seed => (recordRatingWrite rts m u r s now seed).1
  | TrackerOp.recalc m res => recalculateMovieRating rts m res
  | TrackerOp.snapshot f now l => (getHotMovies rts f now l).1
  | TrackerOp.getOne f now m => (getMovieHotness rts f now m).1

/-- Modelled from the spec: the hotness formula as §4.2 states it, with the
rating-quality factor clamped by `min(approxAvgRating/5.0, 1.0)`. Kept
separate from `calculateHotnessScore`, which transcribes the source (and has
no clamp), so the two can be compared. -/
def specHotnessScore (now : ℚ) (h : MovieHotness) : ℚ :=
  let timeDecay : ℚ := 1 / (1 + (now - h.lastWrite) / 24)
  (h.writeCount : ℚ) * timeDecay * (7/10 + 3/10 * min (h.avgRating / 5) 1)

/-- The unclamped score formula actually computed by the source, as a plain
function of the record's fields and the evaluation instant. -/
def codeHotnessScore (now : ℚ) (h : MovieHotness) : ℚ :=
  (h.writeCount : ℚ) * (1 / (1 + (now - h.lastWrite) / 24)) *
    (7/10 + 3/10 * (h.avgRating / 5))

/-- The tracked write count of one movie (0 when the movie is untracked). -/
def writeCountOf (rts : RatingTrackerService) (movieID : String) : Nat :=
  match statsFind rts.movieStats movieID with
  | some h => h.writeCount
  | none => 0

/-- Number of items carried by the flush attempts whose put succeeded. -/
def successfulItemCount (attempts : List FlushAttempt) : Nat :=
  (attempts.map (fun a => if a.putOk then a.items.length else 0)).sum

/-- Total number of items carried by a list of flush events. -/
def flushedLen (flushes : List (List BatchWriteItem)) : Nat :=
  (flushes.map List.length).sum

/-- Total number of items in a list of generated chunks. -/
def chunksLen (chunks : List (List BatchWriteItem)) : Nat :=
  (chunks.map List.length).sum

/-- The operation is a successful recomputation completion for this movie. -/
def isSuccessfulRecalcOf (op : TrackerOp) (movieID : String) : Prop :=
  match op with
  | TrackerOp.recalc m (some _) => m = movieID
  | _ => False

/-- A tracker whose event log capacity is 3, for the spec's FIFO example. -/
def cap3Tracker : RatingTrackerService :=
  { newRatingTrackerService with maxRecords := 3 }

/-- Four writes A, B, C, D (distinguished by user ID) against the
capacity-3 tracker. -/
def cap3AfterABCD : RatingTrackerService :=
  (recordRatingWrite
    ((recordRatingWrite
      ((recordRatingWrite
        ((recordRatingWrite cap3Tracker "1" "A" 3 "t" 0 none).1)
        "1" "B" 3 "t" 1 none).1)
      "1" "C" 3 "t" 2 none).1)
    "1" "D" 3 "t" 3 none).1

/-- A sample buffered item for the batch scenarios. -/
def sampleItem : BatchWriteItem :=
  { movieID := "7", userID := "u", rating := 3, source := "test_batch" }

/-- A chunk sequence of sizes 10,10,10,10,9,10,10,10,10,10,10,7,7
(each within the 5–10 range produced by `generateBatchData`), 123 items in
total. -/
def chunks123 : List (List BatchWriteItem) :=
  [List.replicate 10 sampleItem, List.replicate 10 sampleItem,
   List.replicate 10 sampleItem, List.replicate 10 sampleItem,
   List.replicate 9 sampleItem, List.replicate 10 sampleItem,
   List.replicate 10 sampleItem, List.replicate 10 sampleItem,
   List.replicate 10 sampleItem, List.replicate 10 sampleItem,
   List.replicate 10 sampleItem, List.replicate 7 sampleItem,
   List.replicate 7 sampleItem]

/-- Two buffered items for the same movie and the same user. -/
def dupItems : List BatchWriteItem :=
  [{ movieID := "7", userID := "u", rating := 3, source := "t" },
   { movieID := "7", userID := "u", rating := 4, source := "t" }]

/-- A hotness record used for the tied-score snapshot scenario. -/
def tieRecordA : MovieHotness :=
  { movieID := "1", title := "t", writeCount := 1, lastWrite := 0,
    avgRating := 3, hotnessScore := 0, lastRatingCount := 0,
    newWritesSinceCalc := 1 }

/-- The same numeric fields under a different movie ID, so both records
always carry equal hotness scores. -/
def tieRecordB : MovieHotness :=
  { tieRecordA with movieID := "2" }

/-- A tracker holding exactly the two tied records. -/
def tieTracker : RatingTrackerService :=
  { writeRecords := [], movieStats := [("1", tieRecordA), ("2", tieRecordB)],
    maxRecords := 10000 }

/-! ## Supporting lemmas -/

/-- The Go threshold computation `max(1, int(float64(n) * 0.1))` is exactly
`max 1 (n / 10)` in natural-number arithmetic. -/
theorem calcThreshold_eq (n : Nat) : calcThreshold n = max 1 (n / 10) := by
  unfold calcThreshold
  rw [mul_one_div, show (10 : ℚ) = ((10 : ℕ) : ℚ) by norm_num,
    Rat.floor_natCast_div_natCast, ← Int.natCast_div]
  simp only [Int.toNat_natCast]
  split <;> omega

theorem statsFind_statsUpdate_self (m : List (String × MovieHotness)) (k : String)
    (f : MovieHotness → MovieHotness) :
    statsFind (statsUpdate m k f) k = (statsFind m k).map f := by
  induction m with
  | nil => rfl
  | cons kv rest ih =>
      obtain ⟨k₀, v⟩ := kv
      by_cases h : k₀ = k <;> simp [statsFind, statsUpdate, h, ih]

theorem statsFind_statsUpdate_ne (m : List (String × MovieHotness)) (k k₂ : String)
    (f : MovieHotness → MovieHotness) (hne : k ≠ k₂) :
    statsFind (statsUpdate m k f) k₂ = statsFind m k₂ := by
  induction m with
  | nil => rfl
  | cons kv rest ih =>
      obtain ⟨k₀, v⟩ := kv
      by_cases h : k₀ = k
      · subst h
        simp [statsFind, statsUpdate, hne]
      · simp [statsFind, statsUpdate, h, ih]

theorem statsFind_append (l₁ l₂ : List (String × MovieHotness)) (k : String) :
    statsFind (l₁ ++ l₂) k =
      match statsFind l₁ k with
      | some v => some v
      | none => statsFind l₂ k := by
  induction l₁ with
  | nil => simp [statsFind]
  | cons kv rest ih =>
      obtain ⟨k₀, v⟩ := kv
      by_cases h : k₀ = k <;> simp [statsFind, h, ih]

theorem statsFind_map (m : List (String × MovieHotness)) (k : String)
    (g : MovieHotness → MovieHotness) :
    statsFind (m.map (fun kv => (kv.1, g kv.2))) k = (statsFind m k).map g := by
  induction m with
  | nil => rfl
  | cons kv rest ih =>
      obtain ⟨k₀, v⟩ := kv
      by_cases h : k₀ = k <;> simp [statsFind, h, ih]

/-- `calculateHotnessScore` only writes the `hotnessScore` field, with the
unclamped formula. -/
theorem calculateHotnessScore_eq (now : ℚ) (h : MovieHotness) :
    calculateHotnessScore now h = { h with hotnessScore := codeHotnessScore now h } :=
  rfl

/-- After `RecordRatingWrite`, the movie's record is the created/updated
record with its score refreshed. -/
theorem recordRatingWrite_statsFind_self (rts : RatingTrackerService)
    (movieID userID : String) (rating : ℚ) (source : String) (now : ℚ)
    (storeCount : Option Nat) :
    statsFind ((recordRatingWrite rts movieID userID rating source now
        storeCount).1).movieStats movieID =
      some (calculateHotnessScore now (postWriteRecord rts movieID rating now
        storeCount)) := by
  unfold recordRatingWrite postWriteRecord
  cases hfind : statsFind rts.movieStats movieID with
  | some h =>
      simp only [hfind]
      rw [statsFind_statsUpdate_self, statsFind_statsUpdate_self, hfind]
      rfl
  | none =>
      simp only [hfind]
      rw [statsFind_statsUpdate_self, statsFind_append, hfind]
      simp [statsFind]

/-- `RecordRatingWrite` leaves the records of other movies untouched. -/
theorem recordRatingWrite_statsFind_ne (rts : RatingTrackerService)
    (movieID userID : String) (rating : ℚ) (source : String) (now : ℚ)
    (storeCount : Option Nat) (k : String) (hne : movieID ≠ k) :
    statsFind ((recordRatingWrite rts movieID userID rating source now
        storeCount).1).movieStats k = statsFind rts.movieStats k := by
  unfold recordRatingWrite
  cases hfind : statsFind rts.movieStats movieID with
  | some h =>
      simp only [hfind]
      rw [statsFind_statsUpdate_ne _ _ _ _ hne, statsFind_statsUpdate_ne _ _ _ _ hne]
  | none =>
      simp only [hfind]
      rw [statsFind_statsUpdate_ne _ _ _ _ hne, statsFind_append]
      cases hk : statsFind rts.movieStats k with
      | some v => rfl
      | none => simp [statsFind, hne]

/-- The dispatch decision of `RecordRatingWrite` is the threshold test
evaluated on the movie's post-write record. -/
theorem recordRatingWrite_dispatch (rts : RatingTrackerService)
    (movieID userID : String) (rating : ℚ) (source : String) (now : ℚ)
    (storeCount : Option Nat) :
    (recordRatingWrite rts movieID userID rating source now storeCount).2 =
      checkAndRecalculateRating (postWriteRecord rts movieID rating now
        storeCount) := by
  unfold recordRatingWrite postWriteRecord
  cases hfind : statsFind rts.movieStats movieID with
  | some h =>
      simp only [hfind]
      rw [statsFind_statsUpdate_self, hfind]
      rfl
  | none =>
      simp only [hfind]
      rw [statsFind_append, hfind]
      simp [statsFind]

/-- `resolveTitle` only writes the `title` field. -/
theorem resolveTitle_eta (f : String → Option String) (h : MovieHotness) :
    resolveTitle f h = { h with title := (resolveTitle f h).title } := by
  unfold resolveTitle
  split
  · cases f h.movieID <;> rfl
  · rfl

theorem resolveTitle_hotnessScore (f : String → Option String) (h : MovieHotness) :
    (resolveTitle f h).hotnessScore = h.hotnessScore := by
  rw [resolveTitle_eta]

theorem resolveTitle_writeCount (f : String → Option String) (h : MovieHotness) :
    (resolveTitle f h).writeCount = h.writeCount := by
  rw [resolveTitle_eta]

theorem resolveTitle_lastWrite (f : String → Option String) (h : MovieHotness) :
    (resolveTitle f h).lastWrite = h.lastWrite := by
  rw [resolveTitle_eta]

theorem resolveTitle_avgRating (f : String → Option String) (h : MovieHotness) :
    (resolveTitle f h).avgRating = h.avgRating := by
  rw [resolveTitle_eta]

theorem resolveTitle_newWritesSinceCalc (f : String → Option String)
    (h : MovieHotness) :
    (resolveTitle f h).newWritesSinceCalc = h.newWritesSinceCalc := by
  rw [resolveTitle_eta]

theorem resolveTitle_movieID (f : String → Option String) (h : MovieHotness) :
    (resolveTitle f h).movieID = h.movieID := by
  rw [resolveTitle_eta]

/-- The score formula only reads `writeCount`, `lastWrite` and `avgRating`. -/
theorem codeHotnessScore_congr (now : ℚ) (a b : MovieHotness)
    (h1 : a.writeCount = b.writeCount) (h2 : a.lastWrite = b.lastWrite)
    (h3 : a.avgRating = b.avgRating) :
    codeHotnessScore now a = codeHotnessScore now b := by
  unfold codeHotnessScore
  rw [h1, h2, h3]

/-- Specialization of `statsFind_map` to the snapshot refresh function. -/
theorem statsFind_refresh_map (lookup : String → Option String) (now : ℚ)
    (m : List (String × MovieHotness)) (k : String) :
    statsFind (m.map (fun kv =>
        (kv.1, resolveTitle lookup (calculateHotnessScore now kv.2)))) k =
      (statsFind m k).map
        (fun h => resolveTitle lookup (calculateHotnessScore now h)) :=
  statsFind_map m k (fun h => resolveTitle lookup (calculateHotnessScore now h))

/-- Every record in the snapshot result is a refreshed record of the
post-snapshot stats map. -/
theorem getHotMovies_result_mem (rts : RatingTrackerService)
    (lookup : String → Option String) (now : ℚ) (limit : Int) (g : MovieHotness)
    (hg : g ∈ (getHotMovies rts lookup now limit).2) :
    g ∈ ((getHotMovies rts lookup now limit).1).movieStats.map Prod.snd := by
  unfold getHotMovies at hg ⊢
  simp only at hg ⊢
  have hg₂ : g ∈ (rts.movieStats.map (fun kv =>
      (kv.1, resolveTitle lookup (calculateHotnessScore now kv.2)))).map
        Prod.snd := by
    rw [← (List.mergeSort_perm ((rts.movieStats.map (fun kv =>
      (kv.1, resolveTitle lookup (calculateHotnessScore now kv.2)))).map
        Prod.snd) hotnessDesc).mem_iff]
    split at hg
    · exact List.mem_of_mem_take hg
    · exact hg
  exact hg₂

/-- A refreshed record's stored score is its own unclamped formula value. -/
theorem refresh_score (lookup : String → Option String) (now : ℚ)
    (h₀ : MovieHotness) :
    (resolveTitle lookup (calculateHotnessScore now h₀)).hotnessScore =
      codeHotnessScore now (resolveTitle lookup (calculateHotnessScore now h₀)) := by
  rw [resolveTitle_hotnessScore, calculateHotnessScore_eq]
  exact codeHotnessScore_congr now _ _ (by rw [resolveTitle_writeCount])
    (by rw [resolveTitle_lastWrite]) (by rw [resolveTitle_avgRating])

/-! ## C1: the hotness score formula -/

/-- C1 counterexample: a single write with rating 10 (so approxAvgRating =
10 > 5) at time 0 produces a record whose stored hotness score is 13/10,
while the spec's clamped formula gives 1 at the same instant — so the claim
"the rating-quality factor is clamped so that it never exceeds 1.0" is false
of the code. -/
theorem hotness_clamp_counterexample :
    (statsFind ((recordRatingWrite newRatingTrackerService "1" "u" 10 "api" 0
        none).1).movieStats "1").map MovieHotness.hotnessScore = some (13/10) ∧
    (statsFind ((recordRatingWrite newRatingTrackerService "1" "u" 10 "api" 0
        none).1).movieStats "1").map (specHotnessScore 0) = some 1 ∧
    ((13 : ℚ)/10) ≠ (1 : ℚ) := by
  refine ⟨?_, ?_, by norm_num⟩
  · rw [recordRatingWrite_statsFind_self]
    simp only [Option.map_some, postWriteRecord, newRatingTrackerService,
      statsFind, initialHotness, calculateHotnessScore_eq, codeHotnessScore,
      getCurrentRatingCount]
    norm_num
  · rw [recordRatingWrite_statsFind_self]
    simp only [Option.map_some, postWriteRecord, newRatingTrackerService,
      statsFind, initialHotness, calculateHotnessScore_eq,
      getCurrentRatingCount]
    norm_num [specHotnessScore, min_def]

/-- C1 (amended): for every entity record, after any write (and for every
record returned by a snapshot refresh), the hotness score equals
writeCount × timeDecay × (0.7 + 0.3 × approxAvgRating/5.0) with
timeDecay = 1/(1 + hoursSinceLastWrite/24) and NO clamp on the rating
factor: for approxAvgRating above 5.0 the factor exceeds 1.0. -/
theorem hotness_score_unclamped (rts : RatingTrackerService)
    (movieID userID : String) (rating : ℚ) (source : String) (now : ℚ)
    (storeCount : Option Nat) (lookup : String → Option String) (limit : Int) :
    (∀ h, statsFind ((recordRatingWrite rts movieID userID rating source now
          storeCount).1).movieStats movieID = some h →
        h.hotnessScore = (h.writeCount : ℚ) * (1 / (1 + (now - h.lastWrite) / 24)) *
          (7/10 + 3/10 * (h.avgRating / 5))) ∧
    (∀ g ∈ (getHotMovies rts lookup now limit).2,
        g.hotnessScore = (g.writeCount : ℚ) * (1 / (1 + (now - g.lastWrite) / 24)) *
          (7/10 + 3/10 * (g.avgRating / 5))) ∧
    (∀ g, (getMovieHotness rts lookup now movieID).2 = some g →
        g.hotnessScore = (g.writeCount : ℚ) * (1 / (1 + (now - g.lastWrite) / 24)) *
          (7/10 + 3/10 * (g.avgRating / 5))) := by
  refine ⟨?_, ?_, ?_⟩
  · intro h hfind
    rw [recordRatingWrite_statsFind_self] at hfind
    injection hfind with hh
    subst hh
    show (calculateHotnessScore now _).hotnessScore =
      codeHotnessScore now (calculateHotnessScore now _)
    rw [calculateHotnessScore_eq]
    exact codeHotnessScore_congr now _ _ rfl rfl rfl
  · intro g hg
    have hmem := getHotMovies_result_mem rts lookup now limit g hg
    unfold getHotMovies at hmem
    simp only [List.map_map, List.mem_map, Function.comp] at hmem
    obtain ⟨kv, hkv, hEq⟩ := hmem
    show g.hotnessScore = codeHotnessScore now g
    rw [← hEq, resolveTitle_hotnessScore, calculateHotnessScore_eq]
    show codeHotnessScore now kv.2 = _
    refine codeHotnessScore_congr now _ _ ?_ ?_ ?_
    · rw [resolveTitle_writeCount]
    · rw [resolveTitle_lastWrite]
    · rw [resolveTitle_avgRating]
  · intro g hget
    unfold getMovieHotness at hget
    cases hfind : statsFind rts.movieStats movieID with
    | none =>
        rw [hfind] at hget
        cases hget
    | some h₀ =>
        rw [hfind] at hget
        simp only at hget
        rw [statsFind_statsUpdate_self, hfind] at hget
        simp only [Option.map] at hget
        injection hget with hg
        rw [← hg]
        exact refresh_score lookup now h₀

/-- Witness for `hotness_score_unclamped` at the concrete single-write
state. -/
theorem hotness_score_unclamped_witness :
    statsFind ((recordRatingWrite newRatingTrackerService "1" "u" 10 "api" 0
        none).1).movieStats "1" =
      some (calculateHotnessScore 0
        (postWriteRecord newRatingTrackerService "1" 10 0 none)) ∧
    (calculateHotnessScore 0
        (postWriteRecord newRatingTrackerService "1" 10 0 none)).hotnessScore =
      ((calculateHotnessScore 0
          (postWriteRecord newRatingTrackerService "1" 10 0 none)).writeCount : ℚ) *
        (1 / (1 + (0 - (calculateHotnessScore 0
          (postWriteRecord newRatingTrackerService "1" 10 0 none)).lastWrite) / 24)) *
        (7/10 + 3/10 * ((calculateHotnessScore 0
          (postWriteRecord newRatingTrackerService "1" 10 0 none)).avgRating / 5)) ∧
    (getMovieHotness ((recordRatingWrite newRatingTrackerService "1" "u" 10
        "api" 0 none).1) (fun _ => none) 0 "1").2 =
      some (resolveTitle (fun _ => none) (calculateHotnessScore 0
        (calculateHotnessScore 0
          (postWriteRecord newRatingTrackerService "1" 10 0 none)))) ∧
    (resolveTitle (fun _ => none) (calculateHotnessScore 0
        (calculateHotnessScore 0
          (postWriteRecord newRatingTrackerService "1" 10 0 none)))).hotnessScore =
      ((resolveTitle (fun _ => none) (calculateHotnessScore 0
          (calculateHotnessScore 0 (postWriteRecord newRatingTrackerService "1"
            10 0 none)))).writeCount : ℚ) *
        (1 / (1 + (0 - (resolveTitle (fun _ => none) (calculateHotnessScore 0
          (calculateHotnessScore 0 (postWriteRecord newRatingTrackerService "1"
            10 0 none)))).lastWrite) / 24)) *
        (7/10 + 3/10 * ((resolveTitle (fun _ => none) (calculateHotnessScore 0
          (calculateHotnessScore 0 (postWriteRecord newRatingTrackerService "1"
            10 0 none)))).avgRating / 5)) :=
  ⟨recordRatingWrite_statsFind_self newRatingTrackerService "1" "u" 10 "api" 0 none,
    (hotness_score_unclamped newRatingTrackerService "1" "u" 10 "api" 0 none
      (fun _ => none) 10).1 _
      (recordRatingWrite_statsFind_self newRatingTrackerService "1" "u" 10 "api" 0 none),
    rfl,
    (hotness_score_unclamped
      ((recordRatingWrite newRatingTrackerService "1" "u" 10 "api" 0 none).1)
      "1" "u" 10 "api" 0 none (fun _ => none) 10).2.2 _ rfl⟩

/-! ## C2: the 10 percent staleness threshold -/

/-- C2: after every write, an asynchronous recomputation is dispatched iff
the movie's pending-writes counter has reached
max(1, floor(0.1 × lastKnownAggregateCount)); lastKnownAggregateCount = 40
gives threshold 4 and 0 gives threshold 1; and the threshold-status query
reports a threshold computed by the same formula together with the same
trigger test. -/
theorem recalc_trigger_threshold (rts : RatingTrackerService)
    (movieID userID : String) (rating : ℚ) (source : String) (now : ℚ)
    (storeCount : Option Nat) :
    (∀ h, statsFind ((recordRatingWrite rts movieID userID rating source now
          storeCount).1).movieStats movieID = some h →
        ((recordRatingWrite rts movieID userID rating source now storeCount).2 = true ↔
          max 1 (h.lastRatingCount / 10) ≤ h.newWritesSinceCalc)) ∧
    calcThreshold 40 = 4 ∧ calcThreshold 0 = 1 ∧
    (∀ st, getMovieRatingThresholdStatus rts movieID = some st →
        st.threshold = max 1 (st.lastRatingCount / 10) ∧
        (st.needsRecalculation = true ↔ st.threshold ≤ st.newWritesSinceCalc)) := by
  refine ⟨?_, by rw [calcThreshold_eq]; decide, by rw [calcThreshold_eq]; decide, ?_⟩
  · intro h hfind
    rw [recordRatingWrite_statsFind_self] at hfind
    injection hfind with hh
    subst hh
    rw [recordRatingWrite_dispatch]
    simp [checkAndRecalculateRating, calcThreshold_eq, calculateHotnessScore_eq]
  · intro st hst
    unfold getMovieRatingThresholdStatus at hst
    cases hfind : statsFind rts.movieStats movieID with
    | none => rw [hfind] at hst; cases hst
    | some h =>
        rw [hfind] at hst
        injection hst with hh
        subst hh
        simp [calcThreshold_eq]

/-- Witness for `recalc_trigger_threshold`: a first write against a movie
seeded with aggregate count 40 does not dispatch (threshold 4, pending 1). -/
theorem recalc_trigger_threshold_witness :
    (recordRatingWrite newRatingTrackerService "1" "u" 3 "api" 0 (some 40)).2 = false := by
  have h := (recalc_trigger_threshold newRatingTrackerService "1" "u" 3 "api" 0
      (some 40)).1 _
    (recordRatingWrite_statsFind_self newRatingTrackerService "1" "u" 3 "api" 0 (some 40))
  cases hb : (recordRatingWrite newRatingTrackerService "1" "u" 3 "api" 0 (some 40)).2 with
  | false => rfl
  | true =>
      rw [hb] at h
      have h₄ : max 1 ((calculateHotnessScore 0 (postWriteRecord
          newRatingTrackerService "1" 3 0 (some 40))).lastRatingCount / 10) ≤
          (calculateHotnessScore 0 (postWriteRecord newRatingTrackerService
            "1" 3 0 (some 40))).newWritesSinceCalc := h.mp rfl
      exact absurd h₄ (by decide)

/-! ## C3: onWrite initialization and update -/

/-- C3: a write for an unseen movie initializes its record with
writeCount = 1, approxAvgRating = rating, lastWriteTime = now,
pendingWritesSinceRecalc = 1 and lastKnownAggregateCount seeded from the
backing-store read (0 when that read fails); a write for a seen movie bumps
writeCount and pendingWritesSinceRecalc by exactly 1, stamps lastWriteTime,
and sets approxAvgRating to (old + rating) / 2. -/
theorem write_init_and_update (rts : RatingTrackerService)
    (movieID userID : String) (rating : ℚ) (source : String) (now : ℚ)
    (storeCount : Option Nat) :
    (statsFind rts.movieStats movieID = none →
      ∀ h, statsFind ((recordRatingWrite rts movieID userID rating source now
            storeCount).1).movieStats movieID = some h →
        h.writeCount = 1 ∧ h.avgRating = rating ∧ h.lastWrite = now ∧
        h.newWritesSinceCalc = 1 ∧
        h.lastRatingCount = getCurrentRatingCount storeCount ∧
        (storeCount = none → h.lastRatingCount = 0)) ∧
    (∀ h₀, statsFind rts.movieStats movieID = some h₀ →
      ∀ h, statsFind ((recordRatingWrite rts movieID userID rating source now
            storeCount).1).movieStats movieID = some h →
        h.writeCount = h₀.writeCount + 1 ∧
        h.newWritesSinceCalc = h₀.newWritesSinceCalc + 1 ∧
        h.lastWrite = now ∧
        h.avgRating = (h₀.avgRating + rating) / 2) := by
  constructor
  · intro hnone h hfind
    rw [recordRatingWrite_statsFind_self] at hfind
    injection hfind with hh
    subst hh
    simp only [postWriteRecord, hnone]
    refine ⟨rfl, rfl, rfl, rfl, rfl, ?_⟩
    rintro rfl
    rfl
  · intro h₀ hsome h hfind
    rw [recordRatingWrite_statsFind_self] at hfind
    injection hfind with hh
    subst hh
    simp only [postWriteRecord, hsome]
    exact ⟨rfl, rfl, rfl, rfl⟩

/-- Witness for `write_init_and_update`: a first write (rating 3 at time 0,
failed seed read) followed by a second write (rating 5 at time 1) against
the same movie. -/
theorem write_init_and_update_witness :
    ((calculateHotnessScore 0 (postWriteRecord newRatingTrackerService "1" 3 0
        none)).writeCount = 1 ∧
      (calculateHotnessScore 0 (postWriteRecord newRatingTrackerService "1" 3 0
        none)).avgRating = 3 ∧
      (calculateHotnessScore 0 (postWriteRecord newRatingTrackerService "1" 3 0
        none)).lastWrite = 0 ∧
      (calculateHotnessScore 0 (postWriteRecord newRatingTrackerService "1" 3 0
        none)).newWritesSinceCalc = 1 ∧
      (calculateHotnessScore 0 (postWriteRecord newRatingTrackerService "1" 3 0
        none)).lastRatingCount = getCurrentRatingCount none ∧
      (none = (none : Option Nat) →
        (calculateHotnessScore 0 (postWriteRecord newRatingTrackerService "1" 3 0
          none)).lastRatingCount = 0)) ∧
    ((calculateHotnessScore 1 (postWriteRecord
        ((recordRatingWrite newRatingTrackerService "1" "u" 3 "api" 0 none).1)
        "1" 5 1 none)).writeCount =
      (calculateHotnessScore 0 (postWriteRecord newRatingTrackerService "1" 3 0
        none)).writeCount + 1 ∧
      (calculateHotnessScore 1 (postWriteRecord
        ((recordRatingWrite newRatingTrackerService "1" "u" 3 "api" 0 none).1)
        "1" 5 1 none)).newWritesSinceCalc =
      (calculateHotnessScore 0 (postWriteRecord newRatingTrackerService "1" 3 0
        none)).newWritesSinceCalc + 1 ∧
      (calculateHotnessScore 1 (postWriteRecord
        ((recordRatingWrite newRatingTrackerService "1" "u" 3 "api" 0 none).1)
        "1" 5 1 none)).lastWrite = 1 ∧
      (calculateHotnessScore 1 (postWriteRecord
        ((recordRatingWrite newRatingTrackerService "1" "u" 3 "api" 0 none).1)
        "1" 5 1 none)).avgRating =
      ((calculateHotnessScore 0 (postWriteRecord newRatingTrackerService "1" 3 0
        none)).avgRating + 5) / 2) := by
  constructor
  · exact (write_init_and_update newRatingTrackerService "1" "u" 3 "api" 0 none).1
      rfl _ (recordRatingWrite_statsFind_self newRatingTrackerService "1" "u" 3 "api" 0 none)
  · exact (write_init_and_update
      ((recordRatingWrite newRatingTrackerService "1" "u" 3 "api" 0 none).1)
      "1" "v" 5 "api" 1 none).2 _
      (recordRatingWrite_statsFind_self newRatingTrackerService "1" "u" 3 "api" 0 none) _
      (recordRatingWrite_statsFind_self
        ((recordRatingWrite newRatingTrackerService "1" "u" 3 "api" 0 none).1)
        "1" "v" 5 "api" 1 none)

/-! ## C4: recomputation completion and failure semantics -/

/-- C4: a failed recomputation leaves the tracker state entirely unchanged
(pendingWritesSinceRecalc not reset, prior lastKnownAggregateCount and
approxAvgRating kept, no retry); a successful one installs the new count,
resets pendingWritesSinceRecalc to 0 and overwrites approxAvgRating with
the new mean; and no operation other than a successful recomputation for
that movie ever takes a positive pendingWritesSinceRecalc back to 0. -/
theorem recalc_completion_semantics (rts : RatingTrackerService)
    (movieID : String) (a : ℚ) (c : Nat) :
    recalculateMovieRating rts movieID none = rts ∧
    (∀ h₀, statsFind rts.movieStats movieID = some h₀ →
        statsFind (recalculateMovieRating rts movieID (some (a, c))).movieStats
            movieID =
          some { h₀ with lastRatingCount := c, newWritesSinceCalc := 0,
                         avgRating := a }) ∧
    (∀ op h₀ h₁, statsFind rts.movieStats movieID = some h₀ →
        0 < h₀.newWritesSinceCalc →
        statsFind (trackerStep rts op).movieStats movieID = some h₁ →
        h₁.newWritesSinceCalc = 0 →
        isSuccessfulRecalcOf op movieID) := by
  refine ⟨rfl, ?_, ?_⟩
  · intro h₀ hsome
    show statsFind (statsUpdate rts.movieStats movieID _) movieID = _
    rw [statsFind_statsUpdate_self, hsome]
    rfl
  · intro op h₀ h₁ hsome hpos hfind hzero
    cases op with
    | write m u r s now seed =>
        by_cases hm : m = movieID
        · subst hm
          rw [show trackerStep rts (TrackerOp.write m u r s now seed) =
                (recordRatingWrite rts m u r s now seed).1 from rfl,
              recordRatingWrite_statsFind_self] at hfind
          injection hfind with hh
          rw [← hh] at hzero
          simp only [postWriteRecord, hsome, calculateHotnessScore_eq,
            updatedHotness] at hzero
          exact absurd hzero (Nat.succ_ne_zero _)
        · rw [show trackerStep rts (TrackerOp.write m u r s now seed) =
                (recordRatingWrite rts m u r s now seed).1 from rfl,
              recordRatingWrite_statsFind_ne _ _ _ _ _ _ _ _ hm] at hfind
          rw [hsome] at hfind
          injection hfind with hh
          rw [← hh] at hzero
          omega
    | recalc m res =>
        cases res with
        | none =>
            rw [show trackerStep rts (TrackerOp.recalc m none) = rts from rfl,
              hsome] at hfind
            injection hfind with hh
            rw [← hh] at hzero
            omega
        | some p =>
            by_cases hm : m = movieID
            · exact hm
            · rw [show trackerStep rts (TrackerOp.recalc m (some p)) =
                    recalculateMovieRating rts m (some p) from rfl] at hfind
              obtain ⟨a₂, c₂⟩ := p
              simp only [recalculateMovieRating] at hfind
              rw [statsFind_statsUpdate_ne _ _ _ _ hm, hsome] at hfind
              injection hfind with hh
              rw [← hh] at hzero
              omega
    | snapshot f now l =>
        rw [show trackerStep rts (TrackerOp.snapshot f now l) =
              (getHotMovies rts f now l).1 from rfl] at hfind
        unfold getHotMovies at hfind
        simp only at hfind
        rw [statsFind_refresh_map, hsome] at hfind
        simp only [Option.map] at hfind
        injection hfind with hh
        rw [← hh] at hzero
        rw [resolveTitle_newWritesSinceCalc, calculateHotnessScore_eq] at hzero
        simp only at hzero
        omega
    | getOne f now m =>
        rw [show trackerStep rts (TrackerOp.getOne f now m) =
              (getMovieHotness rts f now m).1 from rfl] at hfind
        unfold getMovieHotness at hfind
        cases hm₂ : statsFind rts.movieStats m with
        | none =>
            rw [hm₂] at hfind
            simp only at hfind
            rw [hsome] at hfind
            injection hfind with hh
            rw [← hh] at hzero
            omega
        | some v =>
            rw [hm₂] at hfind
            simp only at hfind
            by_cases hm : m = movieID
            · subst hm
              rw [statsFind_statsUpdate_self, hm₂] at hfind
              injection hfind with hh
              rw [← hh] at hzero
              rw [hm₂] at hsome
              injection hsome with hh₀
              rw [resolveTitle_newWritesSinceCalc, calculateHotnessScore_eq] at hzero
              simp only at hzero
              rw [hh₀] at hzero
              omega
            · rw [statsFind_statsUpdate_ne _ _ _ _ hm, hsome] at hfind
              injection hfind with hh
              rw [← hh] at hzero
              omega

/-- Witness for `recalc_completion_semantics`: with one tracked movie whose
pending counter is 1, the only step observed to zero the counter is a
successful recomputation for that movie. -/
theorem recalc_completion_semantics_witness :
    isSuccessfulRecalcOf (TrackerOp.recalc "1" (some ((2 : ℚ), 7))) "1" :=
  (recalc_completion_semantics
    { writeRecords := [],
      movieStats := [("1",
        { movieID := "1", title := "t", writeCount := 1, lastWrite := 0,
          avgRating := 0, hotnessScore := 0, lastRatingCount := 5,
          newWritesSinceCalc := 1 })],
      maxRecords := 10000 } "1" 2 7).2.2
    (TrackerOp.recalc "1" (some (2, 7)))
    { movieID := "1", title := "t", writeCount := 1, lastWrite := 0,
      avgRating := 0, hotnessScore := 0, lastRatingCount := 5,
      newWritesSinceCalc := 1 }
    { movieID := "1", title := "t", writeCount := 1, lastWrite := 0,
      avgRating := 2, hotnessScore := 0, lastRatingCount := 7,
      newWritesSinceCalc := 0 }
    rfl (by decide) rfl rfl

/-! ## C5: the tracker is updated only for successful backing-store writes -/

/-- The bounded log handling in `RecordRatingWrite` never touches the
per-movie stats path, so the post-write log is the truncated append. -/
theorem recordRatingWrite_writeRecords (rts : RatingTrackerService)
    (movieID userID : String) (rating : ℚ) (source : String) (now : ℚ)
    (storeCount : Option Nat) :
    ((recordRatingWrite rts movieID userID rating source now
        storeCount).1).writeRecords =
      if rts.maxRecords < (rts.writeRecords ++
          [({ movieID := movieID, userID := userID, rating := rating,
              timestamp := now, source := source } : RatingWriteRecord)]).length then
        (rts.writeRecords ++
          [({ movieID := movieID, userID := userID, rating := rating,
              timestamp := now, source := source } : RatingWriteRecord)]).drop
          ((rts.writeRecords ++
            [({ movieID := movieID, userID := userID, rating := rating,
                timestamp := now, source := source } : RatingWriteRecord)]).length - rts.maxRecords)
      else rts.writeRecords ++
        [({ movieID := movieID, userID := userID, rating := rating,
            timestamp := now, source := source } : RatingWriteRecord)] :=
  rfl

/-- Every call to `RecordRatingWrite` adds exactly one to the movie's
tracked write count. -/
theorem recordRatingWrite_writeCountOf (rts : RatingTrackerService)
    (movieID userID : String) (rating : ℚ) (source : String) (now : ℚ)
    (storeCount : Option Nat) :
    writeCountOf ((recordRatingWrite rts movieID userID rating source now
        storeCount).1) movieID = writeCountOf rts movieID + 1 := by
  unfold writeCountOf
  rw [recordRatingWrite_statsFind_self]
  unfold postWriteRecord
  cases hfind : statsFind rts.movieStats movieID <;>
    simp [hfind, calculateHotnessScore_eq, updatedHotness, initialHotness]

/-- Folding `RecordRatingWrite` over a partition of items for one movie
adds the partition size to that movie's write count. -/
theorem foldl_record_writeCount (items : List BatchWriteItem)
    (rts : RatingTrackerService) (movieID : String) (now : ℚ)
    (storeCount : Option Nat) (hall : ∀ it ∈ items, it.movieID = movieID) :
    writeCountOf (items.foldl (fun s item =>
        (recordRatingWrite s item.movieID item.userID item.rating item.source
          now storeCount).1) rts) movieID =
      writeCountOf rts movieID + items.length := by
  induction items generalizing rts with
  | nil => simp
  | cons it rest ih =>
      simp only [List.foldl_cons, List.length_cons]
      rw [ih _ (fun x hx => hall x (List.mem_cons_of_mem _ hx)),
        hall it (List.mem_cons_self _ _), recordRatingWrite_writeCountOf]
      omega

/-- A sequence of flush attempts adds exactly the successful item count. -/
theorem runFlushAttempts_writeCount (attempts : List FlushAttempt)
    (rts : RatingTrackerService) (movieID : String) (now : ℚ)
    (storeCount : Option Nat)
    (hall : ∀ a ∈ attempts, ∀ it ∈ a.items, it.movieID = movieID) :
    writeCountOf (runFlushAttempts rts movieID now storeCount attempts) movieID =
      writeCountOf rts movieID + successfulItemCount attempts := by
  induction attempts generalizing rts with
  | nil => simp [runFlushAttempts, successfulItemCount]
  | cons a rest ih =>
      have hstep : ∀ s : RatingTrackerService,
          writeCountOf ((writeMovieRatingsBatch s movieID a.items now storeCount
            a.putOk).1) movieID =
            writeCountOf s movieID + (if a.putOk then a.items.length else 0) := by
        intro s
        unfold writeMovieRatingsBatch
        cases a.putOk with
        | false => simp
        | true =>
            simp only [if_pos rfl]
            exact foldl_record_writeCount a.items s movieID now storeCount
              (fun it hit => hall a (List.mem_cons_self _ _) it hit)
      unfold runFlushAttempts at ih ⊢
      simp only [List.foldl_cons]
      rw [ih _ (fun x hx => hall x (List.mem_cons_of_mem _ hx)), hstep]
      simp [successfulItemCount]
      omega

/-- C5: a failed single-item put returns an error and leaves the whole
tracker state (event log and hotness records) unchanged; a failed grouped
put for an entity partition records none of its items; and over any
sequence of flush attempts for one movie, the tracked write count equals
the number of items of the successful attempts. -/
theorem tracker_updates_only_on_success (rts : RatingTrackerService)
    (movieID userID : String) (rating : ℚ) (source : String) (now : ℚ)
    (storeCount : Option Nat) (items : List BatchWriteItem)
    (attempts : List FlushAttempt) :
    writeRatingToHBase rts movieID userID rating source now storeCount false =
      (rts, Except.error "写入HBase失败") ∧
    writeMovieRatingsBatch rts movieID items now storeCount false =
      (rts, 0, items.length) ∧
    ((∀ a ∈ attempts, ∀ it ∈ a.items, it.movieID = movieID) →
      statsFind rts.movieStats movieID = none →
      writeCountOf (runFlushAttempts rts movieID now storeCount attempts)
          movieID = successfulItemCount attempts) := by
  refine ⟨rfl, rfl, ?_⟩
  intro hall hnone
  rw [runFlushAttempts_writeCount attempts rts movieID now storeCount hall]
  simp [writeCountOf, hnone]

/-- Witness for `tracker_updates_only_on_success`: three one-item flush
attempts (success, failure, success) against an untracked movie leave a
write count of 2. -/
theorem tracker_updates_only_on_success_witness :
    writeCountOf (runFlushAttempts newRatingTrackerService "7" 0 none
        [{ items := [sampleItem], putOk := true },
         { items := [sampleItem], putOk := false },
         { items := [sampleItem], putOk := true }]) "7" =
      successfulItemCount
        [{ items := [sampleItem], putOk := true },
         { items := [sampleItem], putOk := false },
         { items := [sampleItem], putOk := true }] :=
  (tracker_updates_only_on_success newRatingTrackerService "7" "u" 3 "t" 0 none []
    [{ items := [sampleItem], putOk := true },
     { items := [sampleItem], putOk := false },
     { items := [sampleItem], putOk := true }]).2.2
    (by
      intro a ha it hit
      fin_cases ha <;> simp_all [sampleItem])
    rfl

/-! ## C6: bounded FIFO event log -/

/-- C6: the event log never exceeds its configured capacity, evicts the
oldest event first when full (with no error), and the recent-writes query
returns the last n events in order (or all of them when fewer exist); with
capacity 3 and events A, B, C, D the query returns exactly B, C, D. -/
theorem event_log_bounded_fifo (rts : RatingTrackerService)
    (movieID userID : String) (rating : ℚ) (source : String) (now : ℚ)
    (storeCount : Option Nat) :
    (rts.writeRecords.length ≤ rts.maxRecords →
      ((recordRatingWrite rts movieID userID rating source now
        storeCount).1).writeRecords.length ≤ rts.maxRecords) ∧
    (0 < rts.maxRecords → rts.writeRecords.length = rts.maxRecords →
      ((recordRatingWrite rts movieID userID rating source now
        storeCount).1).writeRecords =
        rts.writeRecords.tail ++
          [{ movieID := movieID, userID := userID, rating := rating,
             timestamp := now, source := source }]) ∧
    (∀ limit : Int, 0 < limit → (rts.writeRecords.length : Int) ≤ limit →
      getRecentWrites rts limit = rts.writeRecords) ∧
    (∀ limit : Int, 0 < limit → limit < (rts.writeRecords.length : Int) →
      getRecentWrites rts limit =
        rts.writeRecords.drop (rts.writeRecords.length - limit.toNat)) ∧
    (getRecentWrites cap3AfterABCD 10).map RatingWriteRecord.userID =
      ["B", "C", "D"] := by
  refine ⟨?_, ?_, ?_, ?_, by decide⟩
  · intro hlen
    rw [recordRatingWrite_writeRecords]
    split
    · simp only [List.length_drop, List.length_append, List.length_cons,
        List.length_nil]
      omega
    · simp only [List.length_append, List.length_cons, List.length_nil] at *
      omega
  · intro hcap hfull
    rw [recordRatingWrite_writeRecords,
      if_pos (by simp only [List.length_append, List.length_cons,
        List.length_nil]; omega)]
    have h₁ : (rts.writeRecords ++
        [({ movieID := movieID, userID := userID, rating := rating,
            timestamp := now, source := source } : RatingWriteRecord)]).length -
          rts.maxRecords = 1 := by
      simp only [List.length_append, List.length_cons, List.length_nil]
      omega
    rw [h₁, List.drop_append_of_le_length (by omega), List.drop_one]
  · intro limit hpos hle
    unfold getRecentWrites
    rw [if_neg]
    intro hcond
    omega
  · intro limit hpos hlt
    unfold getRecentWrites
    rw [if_pos ⟨hpos, hlt⟩]

/-- Witness for `event_log_bounded_fifo` at the concrete capacity-3 state
holding the events B, C, D. -/
theorem event_log_bounded_fifo_witness :
    ((recordRatingWrite cap3AfterABCD "1" "E" 3 "t" 4 none).1).writeRecords.length ≤
      cap3AfterABCD.maxRecords ∧
    ((recordRatingWrite cap3AfterABCD "1" "E" 3 "t" 4 none).1).writeRecords =
      cap3AfterABCD.writeRecords.tail ++
        [{ movieID := "1", userID := "E", rating := 3, timestamp := 4,
           source := "t" }] ∧
    getRecentWrites cap3AfterABCD 10 = cap3AfterABCD.writeRecords ∧
    getRecentWrites cap3AfterABCD 2 =
      cap3AfterABCD.writeRecords.drop
        (cap3AfterABCD.writeRecords.length - (2 : Int).toNat) :=
  ⟨(event_log_bounded_fifo cap3AfterABCD "1" "E" 3 "t" 4 none).1 (by decide),
   (event_log_bounded_fifo cap3AfterABCD "1" "E" 3 "t" 4 none).2.1 (by decide)
     (by decide),
   (event_log_bounded_fifo cap3AfterABCD "1" "E" 3 "t" 4 none).2.2.1 10
     (by decide) (by decide),
   (event_log_bounded_fifo cap3AfterABCD "1" "E" 3 "t" 4 none).2.2.2.1 2
     (by decide) (by decide)⟩

/-! ## C7: snapshot idempotence -/

/-- Resolving an already-resolved title changes nothing. -/
theorem resolveTitle_idem (f : String → Option String) (r : MovieHotness) :
    resolveTitle f (resolveTitle f r) = resolveTitle f r := by
  by_cases ht : r.title = ""
  · cases hf : f r.movieID with
    | some t =>
        by_cases h0 : t = ""
        · subst h0
          simp [resolveTitle, ht, hf]
        · simp [resolveTitle, ht, hf, h0]
    | none =>
        by_cases hp : ("电影 " ++ r.movieID : String) = ""
        · simp [resolveTitle, ht, hf, hp]
        · simp [resolveTitle, ht, hf, hp]
  · simp [resolveTitle, ht]

/-- Recomputing the score of an already-refreshed record at the same
instant changes nothing. -/
theorem calc_refresh_fix (f : String → Option String) (now : ℚ)
    (h : MovieHotness) :
    calculateHotnessScore now (resolveTitle f (calculateHotnessScore now h)) =
      resolveTitle f (calculateHotnessScore now h) := by
  rw [calculateHotnessScore_eq, ← refresh_score]

/-- The comparator is transitive as a Boolean relation. -/
theorem hotnessDesc_trans (a b c : MovieHotness) (hab : hotnessDesc a b = true)
    (hbc : hotnessDesc b c = true) : hotnessDesc a c = true := by
  simp only [hotnessDesc, decide_eq_true_iff] at *
  exact le_trans hbc hab

/-- The comparator is total as a Boolean relation. -/
theorem hotnessDesc_total (a b : MovieHotness) :
    (hotnessDesc a b || hotnessDesc b a) = true := by
  simp only [hotnessDesc, Bool.or_eq_true, decide_eq_true_iff]
  exact le_total b.hotnessScore a.hotnessScore

/-- The two tied records always carry the same refreshed score. -/
theorem tie_scores_equal (now : ℚ) :
    (resolveTitle (fun _ => none) (calculateHotnessScore now
        tieRecordB)).hotnessScore =
      (resolveTitle (fun _ => none) (calculateHotnessScore now
        tieRecordA)).hotnessScore := by
  rw [resolveTitle_hotnessScore, resolveTitle_hotnessScore,
    calculateHotnessScore_eq, calculateHotnessScore_eq]
  exact codeHotnessScore_congr now tieRecordB tieRecordA rfl rfl rfl

/-- C7 counterexample: the Go `range` over `movieStats` visits the map in
a randomized order that is not guaranteed to repeat across two calls, and
`sort.Slice` is not stable, so the order of tied scores follows the
iteration order. With two records holding equal scores, iterating
`[("1",A),("2",B)]` returns the entities as 1, 2 while iterating the
permutation `[("2",B),("1",A)]` returns them as 2, 1 — two snapshots at
the same instant with no intervening writes need not agree in order, so
the claim fails for this tracker state. -/
theorem snapshot_tie_counterexample :
    List.Perm [("2", tieRecordB), ("1", tieRecordA)] tieTracker.movieStats ∧
    ((getHotMoviesIter tieTracker (fun _ => none) 0 10
        tieTracker.movieStats).2).map MovieHotness.movieID = ["1", "2"] ∧
    ((getHotMoviesIter tieTracker (fun _ => none) 0 10
        [("2", tieRecordB), ("1", tieRecordA)]).2).map MovieHotness.movieID =
      ["2", "1"] ∧
    (["1", "2"] : List String) ≠ ["2", "1"] := by
  have hsorted₁ : List.Pairwise (fun a b => hotnessDesc a b = true)
      [resolveTitle (fun _ => none) (calculateHotnessScore 0 tieRecordA),
       resolveTitle (fun _ => none) (calculateHotnessScore 0 tieRecordB)] := by
    refine List.Pairwise.cons ?_ (List.Pairwise.cons (by simp) List.Pairwise.nil)
    intro y hy
    simp only [List.mem_singleton] at hy
    subst hy
    simp only [hotnessDesc, decide_eq_true_iff]
    exact le_of_eq (tie_scores_equal 0)
  have hsorted₂ : List.Pairwise (fun a b => hotnessDesc a b = true)
      [resolveTitle (fun _ => none) (calculateHotnessScore 0 tieRecordB),
       resolveTitle (fun _ => none) (calculateHotnessScore 0 tieRecordA)] := by
    refine List.Pairwise.cons ?_ (List.Pairwise.cons (by simp) List.Pairwise.nil)
    intro y hy
    simp only [List.mem_singleton] at hy
    subst hy
    simp only [hotnessDesc, decide_eq_true_iff]
    exact le_of_eq (tie_scores_equal 0).symm
  refine ⟨List.Perm.swap _ _ _, ?_, ?_, by decide⟩
  · show ((getHotMoviesIter tieTracker (fun _ => none) 0 10
        [("1", tieRecordA), ("2", tieRecordB)]).2).map MovieHotness.movieID =
      ["1", "2"]
    unfold getHotMoviesIter
    simp only [List.map_cons, List.map_nil]
    rw [List.mergeSort_of_sorted hsorted₁, if_neg (by decide)]
    simp only [List.map_cons, List.map_nil]
    rw [resolveTitle_movieID, resolveTitle_movieID, calculateHotnessScore_eq,
      calculateHotnessScore_eq]
    rfl
  · unfold getHotMoviesIter
    simp only [List.map_cons, List.map_nil]
    rw [List.mergeSort_of_sorted hsorted₂, if_neg (by decide)]
    simp only [List.map_cons, List.map_nil]
    rw [resolveTitle_movieID, resolveTitle_movieID, calculateHotnessScore_eq,
      calculateHotnessScore_eq]
    rfl

/-- C7 (amended): with no intervening writes, two snapshot calls evaluated
against the same instant agree up to the ordering of tied scores: when the
map is iterated in the same order twice, the second call returns exactly
the first call's state and list; for any two iteration orders the returned
score sequences are identical (truncation included); and with no
truncation the two calls return the same entities up to permutation.
Identical ordering of tied entities across calls is not guaranteed. -/
theorem snapshot_idempotent_mod_ties (rts : RatingTrackerService)
    (lookup : String → Option String) (now : ℚ) (limit : Int)
    (iter : List (String × MovieHotness)) :
    (getHotMoviesIter ((getHotMoviesIter rts lookup now limit iter).1) lookup
        now limit (iter.map (fun kv =>
          (kv.1, resolveTitle lookup (calculateHotnessScore now kv.2)))) =
      getHotMoviesIter rts lookup now limit iter) ∧
    (∀ iter₂, iter.Perm iter₂ →
      ((getHotMoviesIter rts lookup now limit iter).2).map
          MovieHotness.hotnessScore =
        ((getHotMoviesIter rts lookup now limit iter₂).2).map
          MovieHotness.hotnessScore) ∧
    (∀ iter₂, iter.Perm iter₂ → ¬ 0 < limit →
      ((getHotMoviesIter rts lookup now limit iter).2).Perm
        ((getHotMoviesIter rts lookup now limit iter₂).2)) := by
  refine ⟨?_, ?_, ?_⟩
  · have hstats : (rts.movieStats.map (fun kv =>
        (kv.1, resolveTitle lookup (calculateHotnessScore now kv.2)))).map
          (fun kv => (kv.1, resolveTitle lookup (calculateHotnessScore now kv.2))) =
        rts.movieStats.map (fun kv =>
          (kv.1, resolveTitle lookup (calculateHotnessScore now kv.2))) := by
      rw [List.map_map]
      apply List.map_congr_left
      intro kv _
      simp only [Function.comp]
      rw [calc_refresh_fix, resolveTitle_idem]
    have hiter : (iter.map (fun kv =>
        (kv.1, resolveTitle lookup (calculateHotnessScore now kv.2)))).map
          (fun kv => resolveTitle lookup (calculateHotnessScore now kv.2)) =
        iter.map (fun kv => resolveTitle lookup (calculateHotnessScore now kv.2)) := by
      rw [List.map_map]
      apply List.map_congr_left
      intro kv _
      simp only [Function.comp]
      rw [calc_refresh_fix, resolveTitle_idem]
    show getHotMoviesIter { rts with movieStats := rts.movieStats.map (fun kv =>
        (kv.1, resolveTitle lookup (calculateHotnessScore now kv.2))) } lookup
          now limit _ = _
    unfold getHotMoviesIter
    simp only [hstats, hiter]
  · intro iter₂ hperm
    have hperm₂ : ((iter.map (fun kv =>
        resolveTitle lookup (calculateHotnessScore now kv.2))).mergeSort
          hotnessDesc).Perm
        ((iter₂.map (fun kv =>
          resolveTitle lookup (calculateHotnessScore now kv.2))).mergeSort
            hotnessDesc) :=
      ((List.mergeSort_perm _ _).trans (hperm.map _)).trans
        (List.mergeSort_perm _ _).symm
    have hscores : ((iter.map (fun kv =>
        resolveTitle lookup (calculateHotnessScore now kv.2))).mergeSort
          hotnessDesc).map MovieHotness.hotnessScore =
        ((iter₂.map (fun kv =>
          resolveTitle lookup (calculateHotnessScore now kv.2))).mergeSort
            hotnessDesc).map MovieHotness.hotnessScore := by
      refine @List.eq_of_perm_of_sorted ℚ (fun a b => b ≤ a)
        ⟨fun a b h1 h2 => le_antisymm h2 h1⟩ _ _ (hperm₂.map _) ?_ ?_
      · exact List.Pairwise.map _
          (fun a b hab => by simpa [hotnessDesc, decide_eq_true_iff] using hab)
          (List.sorted_mergeSort hotnessDesc_trans hotnessDesc_total _)
      · exact List.Pairwise.map _
          (fun a b hab => by simpa [hotnessDesc, decide_eq_true_iff] using hab)
          (List.sorted_mergeSort hotnessDesc_trans hotnessDesc_total _)
    have hlen := hperm₂.length_eq
    unfold getHotMoviesIter
    simp only [hlen]
    split
    · rw [List.map_take, List.map_take, hscores]
    · exact hscores
  · intro iter₂ hperm hnl
    have hperm₂ : ((iter.map (fun kv =>
        resolveTitle lookup (calculateHotnessScore now kv.2))).mergeSort
          hotnessDesc).Perm
        ((iter₂.map (fun kv =>
          resolveTitle lookup (calculateHotnessScore now kv.2))).mergeSort
            hotnessDesc) :=
      ((List.mergeSort_perm _ _).trans (hperm.map _)).trans
        (List.mergeSort_perm _ _).symm
    unfold getHotMoviesIter
    simp only
    rw [if_neg (fun h => hnl h.1), if_neg (fun h => hnl h.1)]
    exact hperm₂

/-- Witness for `snapshot_idempotent_mod_ties` at the tied two-record
tracker and its two iteration orders. -/
theorem snapshot_idempotent_mod_ties_witness :
    ((getHotMoviesIter tieTracker (fun _ => none) 0 10
        tieTracker.movieStats).2).map MovieHotness.hotnessScore =
      ((getHotMoviesIter tieTracker (fun _ => none) 0 10
        [("2", tieRecordB), ("1", tieRecordA)]).2).map
          MovieHotness.hotnessScore ∧
    ((getHotMoviesIter tieTracker (fun _ => none) 0 0
        tieTracker.movieStats).2).Perm
      ((getHotMoviesIter tieTracker (fun _ => none) 0 0
        [("2", tieRecordB), ("1", tieRecordA)]).2) :=
  ⟨(snapshot_idempotent_mod_ties tieTracker (fun _ => none) 0 10
      tieTracker.movieStats).2.1 _ (List.Perm.swap _ _ _).symm,
   (snapshot_idempotent_mod_ties tieTracker (fun _ => none) 0 0
      tieTracker.movieStats).2.2 _ (List.Perm.swap _ _ _).symm (by decide)⟩

/-! ## C8: snapshot refreshes, sorts descending and truncates -/

/-- C8: for every positive limit, the snapshot first refreshes the score
of every tracked record against the snapshot instant, and returns a list
that is sorted in descending score order, truncated to at most `limit`
entries, each carrying its refreshed score. -/
theorem snapshot_sorted_truncated (rts : RatingTrackerService)
    (lookup : String → Option String) (now : ℚ) (limit : Int)
    (hpos : 0 < limit) :
    (∀ kv ∈ ((getHotMovies rts lookup now limit).1).movieStats,
        kv.2.hotnessScore = codeHotnessScore now kv.2) ∧
    List.Sorted (fun a b : MovieHotness => b.hotnessScore ≤ a.hotnessScore)
      ((getHotMovies rts lookup now limit).2) ∧
    (((getHotMovies rts lookup now limit).2).length : Int) ≤ limit ∧
    (∀ g ∈ (getHotMovies rts lookup now limit).2,
        g.hotnessScore = codeHotnessScore now g) := by
  refine ⟨?_, ?_, ?_, ?_⟩
  · intro kv hkv
    unfold getHotMovies at hkv
    simp only [List.mem_map] at hkv
    obtain ⟨kw, hkw, hEq⟩ := hkv
    rw [← hEq]
    exact refresh_score lookup now kw.2
  · have hpair : List.Pairwise (fun a b => hotnessDesc a b = true)
        ((((getHotMovies rts lookup now limit).1).movieStats.map
          Prod.snd).mergeSort hotnessDesc) :=
      List.sorted_mergeSort hotnessDesc_trans hotnessDesc_total _
    have hsorted : List.Sorted
        (fun a b : MovieHotness => b.hotnessScore ≤ a.hotnessScore)
        ((((getHotMovies rts lookup now limit).1).movieStats.map
          Prod.snd).mergeSort hotnessDesc) :=
      hpair.imp (fun hab => by
        simpa [hotnessDesc, decide_eq_true_iff] using hab)
    unfold getHotMovies
    simp only
    split
    · exact List.Pairwise.sublist (List.take_sublist _ _) hsorted
    · exact hsorted
  · unfold getHotMovies
    simp only
    split
    · rename_i hcond
      rw [List.length_take]
      have := hcond.2
      simp only [Int.toNat_lt hpos.le] at *
      omega
    · rename_i hcond
      rw [Classical.not_and_iff_or_not_not] at hcond
      rcases hcond with h | h
      · exact absurd hpos h
      · omega
  · intro g hg
    have hmem := getHotMovies_result_mem rts lookup now limit g hg
    unfold getHotMovies at hmem
    simp only [List.map_map, List.mem_map, Function.comp] at hmem
    obtain ⟨kv, hkv, hEq⟩ := hmem
    rw [← hEq]
    exact refresh_score lookup now kv.2

/-- Witness for `snapshot_sorted_truncated` at the one-movie tracker and
limit 5. -/
theorem snapshot_sorted_truncated_witness :
    (((getHotMovies ((recordRatingWrite newRatingTrackerService "1" "u" 3 "api"
        0 none).1) (fun _ => none) 0 5).2).length : Int) ≤ 5 :=
  (snapshot_sorted_truncated ((recordRatingWrite newRatingTrackerService "1"
    "u" 3 "api" 0 none).1) (fun _ => none) 0 5 (by decide)).2.2.1

/-! ## C9: size-triggered batch flushes -/

/-- One `generateBatchData` step: below the threshold the chunk is simply
buffered; at or above it the whole buffer is flushed as one event and
emptied. -/
theorem generateBatchData_spec (tc : TestController)
    (chunk : List BatchWriteItem) (hsize : tc.batchSize = 50) :
    (tc.batchBuffer.length + chunk.length < 50 →
      generateBatchData tc chunk =
        ({ tc with batchBuffer := tc.batchBuffer ++ chunk }, [])) ∧
    (50 ≤ tc.batchBuffer.length + chunk.length →
      generateBatchData tc chunk =
        ({ tc with batchBuffer := [] }, [tc.batchBuffer ++ chunk])) := by
  constructor <;> intro hlen
  · unfold generateBatchData
    rw [hsize]
    simp only [List.length_append]
    rw [if_neg (by omega)]
  · unfold generateBatchData flushBatchUnsafe
    rw [hsize]
    simp only [List.length_append]
    rw [if_pos (by omega), if_neg (by omega)]

/-- Invariant of a chunked generation run starting below the threshold with
batch size 50 and chunks of at most 10 items: the buffer stays below 50,
items are conserved between flushes and the pending buffer, and every flush
event carries between 50 and 59 items. -/
theorem runGenerate_spec (chunks : List (List BatchWriteItem))
    (tc : TestController) (hsize : tc.batchSize = 50)
    (hbuf : tc.batchBuffer.length < 50)
    (hc : ∀ c ∈ chunks, c.length ≤ 10) :
    (runGenerate tc chunks).1.batchSize = 50 ∧
    (runGenerate tc chunks).1.batchBuffer.length < 50 ∧
    tc.batchBuffer.length + chunksLen chunks =
      flushedLen (runGenerate tc chunks).2 +
        (runGenerate tc chunks).1.batchBuffer.length ∧
    (∀ fl ∈ (runGenerate tc chunks).2, 50 ≤ fl.length ∧ fl.length ≤ 59) := by
  induction chunks generalizing tc with
  | nil =>
      refine ⟨hsize, hbuf, by simp [runGenerate, chunksLen, flushedLen], ?_⟩
      intro fl hfl
      simp [runGenerate] at hfl
  | cons c rest ih =>
      have hc₁ : c.length ≤ 10 := hc c (List.mem_cons_self _ _)
      have hcr : ∀ x ∈ rest, x.length ≤ 10 :=
        fun x hx => hc x (List.mem_cons_of_mem _ hx)
      by_cases hlt : tc.batchBuffer.length + c.length < 50
      · have hstep := (generateBatchData_spec tc c hsize).1 hlt
        have hbuf₂ : ({ tc with batchBuffer := tc.batchBuffer ++ c } :
            TestController).batchBuffer.length < 50 := by
          simp only [List.length_append]
          omega
        have ih₂ := ih { tc with batchBuffer := tc.batchBuffer ++ c } hsize
          hbuf₂ hcr
        simp only [runGenerate, hstep, List.nil_append]
        refine ⟨ih₂.1, ih₂.2.1, ?_, ih₂.2.2.2⟩
        have hcons := ih₂.2.2.1
        simp only [List.length_append] at hcons
        simp only [chunksLen, List.map_cons, List.sum_cons] at *
        omega
      · have hstep := (generateBatchData_spec tc c hsize).2 (by omega)
        have ih₂ := ih { tc with batchBuffer := [] } hsize (by simp) hcr
        simp only [runGenerate, hstep]
        refine ⟨ih₂.1, ih₂.2.1, ?_, ?_⟩
        · have hcons := ih₂.2.2.1
          simp only [List.length_nil] at hcons
          simp only [chunksLen, flushedLen, List.map_cons, List.sum_cons,
            List.cons_append, List.nil_append, List.length_append] at *
          omega
        · intro fl hfl
          simp only [List.cons_append, List.nil_append, List.mem_cons] at hfl
          rcases hfl with hfl | hfl
          · subst hfl
            simp only [List.length_append]
            omega
          · exact ih₂.2.2.2 fl hfl

/-- Flush events of 50 to 59 items bound the total flushed volume. -/
theorem flushedLen_bounds (fls : List (List BatchWriteItem))
    (h : ∀ fl ∈ fls, 50 ≤ fl.length ∧ fl.length ≤ 59) :
    50 * fls.length ≤ flushedLen fls ∧ flushedLen fls ≤ 59 * fls.length := by
  induction fls with
  | nil => simp [flushedLen]
  | cons x xs ih =>
      obtain ⟨h₁, h₂⟩ := h x (List.mem_cons_self _ _)
      have hrest := ih (fun y hy => h y (List.mem_cons_of_mem _ hy))
      simp only [flushedLen, List.map_cons, List.sum_cons, List.length_cons] at *
      omega

/-- C9 counterexample: 123 items enqueued through chunks of sizes
10,10,10,10,9,10,10,10,10,10,10,7,7 (all within the generator's 5–10
range) produce two flushes of 59 and 50 items and leave 14 — not 23 —
items pending, so the claimed remainder of exactly 23 does not hold for
every way of enqueuing 123 items. -/
theorem batch_123_counterexample :
    chunksLen chunks123 = 123 ∧
    (runGenerate newTestController chunks123).2.map List.length = [59, 50] ∧
    (runGenerate newTestController chunks123).1.batchBuffer.length = 14 ∧
    (14 : Nat) ≠ 23 := by
  refine ⟨by decide, by decide, by decide, by decide⟩

/-- C9 (amended): the buffer is flushed exactly when it has reached the
size threshold right after a chunk of items is enqueued, and a flush
empties the buffer; consequently, enqueuing 123 items in generator chunks
(each of at most 10 items) with no timer fire produces exactly two flushes
totalling at least 100 items, and the remainder — between 5 and 23 items,
exactly 23 only when both flushes carry exactly 50 — stays pending in the
buffer. -/
theorem batch_flush_at_threshold (tc : TestController)
    (chunk : List BatchWriteItem) (chunks : List (List BatchWriteItem))
    (hc : ∀ c ∈ chunks, c.length ≤ 10) (hsum : chunksLen chunks = 123) :
    (tc.batchSize ≤ tc.batchBuffer.length + chunk.length →
      (generateBatchData tc chunk).1.batchBuffer = []) ∧
    (tc.batchBuffer.length + chunk.length < tc.batchSize →
      generateBatchData tc chunk =
        ({ tc with batchBuffer := tc.batchBuffer ++ chunk }, [])) ∧
    ((runGenerate newTestController chunks).2.length = 2 ∧
      100 ≤ flushedLen (runGenerate newTestController chunks).2 ∧
      flushedLen (runGenerate newTestController chunks).2 +
        (runGenerate newTestController chunks).1.batchBuffer.length = 123 ∧
      5 ≤ (runGenerate newTestController chunks).1.batchBuffer.length ∧
      (runGenerate newTestController chunks).1.batchBuffer.length ≤ 23) := by
  refine ⟨?_, ?_, ?_⟩
  · intro hge
    unfold generateBatchData flushBatchUnsafe
    simp only [List.length_append]
    rw [if_pos (by omega)]
    by_cases h0 : tc.batchBuffer.length + chunk.length = 0
    · rw [if_pos (by omega)]
      have h1 : tc.batchBuffer = [] :=
        List.eq_nil_of_length_eq_zero (by omega)
      have h2 : chunk = [] := List.eq_nil_of_length_eq_zero (by omega)
      simp [h1, h2]
    · rw [if_neg (by omega)]
  · intro hlt
    unfold generateBatchData
    rw [if_neg (by simp only [List.length_append]; omega)]
  · have hspec := runGenerate_spec chunks newTestController rfl (by decide) hc
    obtain ⟨hsz, hlt, hcons, hfl⟩ := hspec
    have hbounds := flushedLen_bounds _ hfl
    have h0 : newTestController.batchBuffer.length = 0 := rfl
    rw [hsum, h0] at hcons
    refine ⟨by omega, by omega, by omega, by omega, by omega⟩

/-- Witness for `batch_flush_at_threshold` at the concrete chunk sequence
`chunks123`. -/
theorem batch_flush_at_threshold_witness :
    (runGenerate newTestController chunks123).2.length = 2 ∧
    100 ≤ flushedLen (runGenerate newTestController chunks123).2 ∧
    flushedLen (runGenerate newTestController chunks123).2 +
      (runGenerate newTestController chunks123).1.batchBuffer.length = 123 ∧
    5 ≤ (runGenerate newTestController chunks123).1.batchBuffer.length ∧
    (runGenerate newTestController chunks123).1.batchBuffer.length ≤ 23 :=
  (batch_flush_at_threshold newTestController [] chunks123 (by decide)
    (by decide)).2.2

/-! ## C10: duplicate users inside one grouped put -/

theorem valuesFind_insert_self (vs : List (String × ℚ)) (k : String) (v : ℚ) :
    valuesFind (valuesInsert vs k v) k = some v := by
  induction vs with
  | nil => simp [valuesInsert, valuesFind]
  | cons kv rest ih =>
      obtain ⟨k₀, v₀⟩ := kv
      by_cases h : k₀ = k <;> simp [valuesInsert, valuesFind, h, ih]

theorem mem_keys_valuesInsert (vs : List (String × ℚ)) (k : String) (v : ℚ)
    (a : String) :
    a ∈ (valuesInsert vs k v).map Prod.fst ↔ a ∈ vs.map Prod.fst ∨ a = k := by
  induction vs with
  | nil => simp [valuesInsert]
  | cons kv rest ih =>
      obtain ⟨k₀, v₀⟩ := kv
      by_cases h : k₀ = k
      · subst h
        simp [valuesInsert]
        tauto
      · simp [valuesInsert, h, ih]
        tauto

theorem nodup_keys_valuesInsert (vs : List (String × ℚ)) (k : String) (v : ℚ)
    (h : (vs.map Prod.fst).Nodup) :
    ((valuesInsert vs k v).map Prod.fst).Nodup := by
  induction vs with
  | nil => simp [valuesInsert]
  | cons kv rest ih =>
      obtain ⟨k₀, v₀⟩ := kv
      simp only [List.map_cons, List.nodup_cons] at h
      by_cases hk : k₀ = k
      · subst hk
        simpa [valuesInsert, List.nodup_cons] using h
      · simp only [valuesInsert, if_neg hk, List.map_cons, List.nodup_cons]
        refine ⟨?_, ih h.2⟩
        rw [mem_keys_valuesInsert]
        rintro (hmem | rfl)
        · exact h.1 hmem
        · exact hk rfl

theorem valuesInsert_length (vs : List (String × ℚ)) (k : String) (v : ℚ) :
    (valuesInsert vs k v).length ≤ vs.length + 1 := by
  induction vs with
  | nil => simp [valuesInsert]
  | cons kv rest ih =>
      obtain ⟨k₀, v₀⟩ := kv
      by_cases h : k₀ = k
      · simp [valuesInsert, h]
      · simp only [valuesInsert, if_neg h, List.length_cons]
        have := ih
        omega

theorem buildBatchValues_loop_nodup (items : List BatchWriteItem)
    (vs : List (String × ℚ)) (h : (vs.map Prod.fst).Nodup) :
    ((items.foldl (fun values item =>
        valuesInsert values item.userID item.rating) vs).map Prod.fst).Nodup := by
  induction items generalizing vs with
  | nil => simpa
  | cons it rest ih =>
      simp only [List.foldl_cons]
      exact ih _ (nodup_keys_valuesInsert _ _ _ h)

theorem buildBatchValues_loop_length (items : List BatchWriteItem)
    (vs : List (String × ℚ)) :
    (items.foldl (fun values item =>
        valuesInsert values item.userID item.rating) vs).length ≤
      vs.length + items.length := by
  induction items generalizing vs with
  | nil => simp
  | cons it rest ih =>
      simp only [List.foldl_cons, List.length_cons]
      have h₁ := ih (valuesInsert vs it.userID it.rating)
      have h₂ := valuesInsert_length vs it.userID it.rating
      omega

/-- C10: the grouped put of one entity partition holds at most one value
per user (its keys are duplicate-free, a later item for the same user
overwrites the earlier value, and its size is at most the item count), yet
a successful put counts every item as successful and feeds every item —
duplicates included — to the tracking path, so the tracked write count can
exceed the number of values actually persisted: the concrete two-item
partition for one user persists a single value but yields write count 2. -/
theorem batch_put_overwrites_duplicates (items : List BatchWriteItem)
    (it : BatchWriteItem) (vs : List (String × ℚ)) (k : String) (v : ℚ)
    (rts : RatingTrackerService) (movieID : String) (now : ℚ)
    (storeCount : Option Nat) :
    ((buildBatchValues items).map Prod.fst).Nodup ∧
    buildBatchValues (items ++ [it]) =
      valuesInsert (buildBatchValues items) it.userID it.rating ∧
    valuesFind (valuesInsert vs k v) k = some v ∧
    (buildBatchValues items).length ≤ items.length ∧
    (writeMovieRatingsBatch rts movieID items now storeCount true).2.1 =
      items.length ∧
    (writeMovieRatingsBatch rts movieID items now storeCount true).1 =
      items.foldl (fun s item =>
        (recordRatingWrite s item.movieID item.userID item.rating item.source
          now storeCount).1) rts ∧
    (buildBatchValues dupItems).length = 1 ∧
    writeCountOf (writeMovieRatingsBatch newRatingTrackerService "7" dupItems
      0 none true).1 "7" = 2 ∧
    (1 : Nat) < 2 := by
  refine ⟨buildBatchValues_loop_nodup items [] (by simp), ?_, ?_, ?_, rfl, rfl,
    by decide, by decide, by decide⟩
  · unfold buildBatchValues
    rw [List.foldl_append]
    rfl
  · exact valuesFind_insert_self vs k v
  · simpa using buildBatchValues_loop_length items []

end DoroScore
